import Mathlib

/-!
# Szczk Cloud storage driver (`drivers/szczk`)

A shallow embedding of the Go package `szczk`: the token lifecycle
(`authenticate`, `refreshAccessToken`, the interval computed by
`startTokenRefresh`), the helper `makeRequest`, and the object operations
`List`, `Link`, `MakeDir`, `Rename`, `Move`, `Remove`, `Put`, `Get`.

Modelling conventions

* The remote service is an `Env`: a deterministic function from the requests
  issued so far and the request being issued to a `Reply`.  Every request the
  driver issues is appended to the `World`'s log, so "which calls were made,
  and in which order" is a statement about that log.
* `time.Time` is an integer count of nanoseconds measured from Go's zero
  `Time`; `time.Duration` is a signed 64-bit count of nanoseconds, so duration
  arithmetic wraps (`wrap64`) and `Time.Sub` saturates, as in Go.
* `json.Unmarshal` and `time.Parse` are library functions: they are fields of
  the `Env`.
* Go strings are `String`s; `"/"` is a single byte and UTF-8 is
  self-synchronising, so positions counted in characters slice a path at the
  same places as positions counted in bytes.
-/

namespace szczk

/-! ## Time -/

/-! An instant (`time.Time`) is an `Int`: nanoseconds since the zero value of
`time.Time`. A `time.Duration` is an `Int` kept in the signed 64-bit range by
`wrap64` and by the saturation of `Time.Sub`. -/

/-- Largest `time.Duration` (`1<<63 - 1`). -/
def maxDuration : Int := 9223372036854775807

/-- Smallest `time.Duration` (`-1 << 63`). -/
def minDuration : Int := -9223372036854775808

/-- Two's-complement wrap of an integer into the `int64` range. -/
def wrap64 (x : Int) : Int := (x + 9223372036854775808) % 18446744073709551616 - 9223372036854775808

/-- The constant `time.Second`. -/
def Second : Int := 1000000000

/-- The constant `time.Minute`. -/
def Minute : Int := 60 * Second

/-- Go `Time.Sub`: the duration `t - u`, saturated at the largest and
smallest `Duration`. -/
def Time.Sub (t u : Int) : Int :=
  if t - u > maxDuration then maxDuration
  else if t - u < minDuration then minDuration
  else t - u

/-- Go `Time.Add`. -/
def Time.Add (t : Int) (d : Int) : Int := t + d

/-- The expression `time.Duration(n) * time.Second` on an `int` value `n`. -/
def secondsToDuration (n : Int) : Int := wrap64 (wrap64 n * Second)

/-! ## HTTP -/

/-- A value of a JSON request body. -/
inductive Value where
  | str (s : String)
  | int (n : Int)
  deriving DecidableEq, Repr

/-- A request body: the key/value pairs of the Go map literal, in source order. -/
abbrev Payload := List (String × Value)

/-- One request as built on a `resty` request object. `url` is the string
passed to `Get`/`Post`/`Execute`; `auth` is the `Authorization` header;
`file` is the `(field, fileName)` of `SetFileReader`. -/
structure Request where
  method : String
  url : String
  auth : Option String
  query : List (String × String)
  body : Option Payload
  file : Option (String × String)
  deriving DecidableEq, Repr

/-- What a call yields: a transport error (`err != nil`), or a response. -/
inductive Reply where
  | failure (cause : String)
  | response (status : Nat) (body : String)
  deriving DecidableEq, Repr

/-- A `*resty.Response` as the driver reads it. -/
structure Response where
  status : Nat
  body : String
  deriving DecidableEq, Repr

/-- The `resty` method `Response.IsError`: true when the status code is 400 or above
(`r.StatusCode() > 399`). -/
def IsError (status : Nat) : Bool := decide (status > 399)

/-- Go `unicode.IsSpace`: the white space characters of Unicode, given by
their code points. -/
def isSpace (c : Char) : Bool :=
  c.toNat = 9 || c.toNat = 10 || c.toNat = 11 || c.toNat = 12 || c.toNat = 13 ||
  c.toNat = 32 || c.toNat = 133 || c.toNat = 160 || c.toNat = 5760 ||
  (8192 ≤ c.toNat && c.toNat ≤ 8202) || c.toNat = 8232 || c.toNat = 8233 ||
  c.toNat = 8239 || c.toNat = 8287 || c.toNat = 12288

/-- Go `strings.TrimSpace`: the string without its leading and trailing white space. -/
def TrimSpace (s : String) : String :=
  String.mk (((s.data.dropWhile isSpace).reverse.dropWhile isSpace).reverse)

/-- The `resty` method `Response.String` on a response with the given body:
the body with surrounding white space trimmed. It is what the error messages
of the driver format after the status. -/
def respString (body : String) : String := TrimSpace body

/-- The constant `http.StatusUnauthorized`. -/
def StatusUnauthorized : Nat := 401

/-- The constant `http.StatusForbidden`. -/
def StatusForbidden : Nat := 403

/-! ## Wire types (`types.go`) -/

/-- The struct `AuthResponse`. -/
structure AuthResponse where
  AccessToken : String
  RefreshToken : String
  ExpiresIn : Int
  deriving DecidableEq, Repr

/-- The struct `RefreshTokenResponse`. -/
structure RefreshTokenResponse where
  AccessToken : String
  ExpiresIn : Int
  deriving DecidableEq, Repr

/-- One entry of `files` as `List` decodes it (`ModifiedAt` is a string there). -/
structure FileEntry where
  ID : String
  Name : String
  Size : Int
  IsFolder : Bool
  ModifiedAt : String
  deriving DecidableEq, Repr

/-- The struct `FirstUploadResponse`. -/
structure FirstUploadResponse where
  UploadURL : String
  UploadToken : String
  deriving DecidableEq, Repr

/-! ## Host types -/

/-- The host's `model.Object`. -/
structure Object where
  ID : String
  Path : String
  Name : String
  Size : Int
  Modified : Int
  IsFolder : Bool
  deriving DecidableEq, Repr

/-- The host's `model.Link`. -/
structure Link where
  URL : String
  deriving DecidableEq, Repr

/-- A `model.FileStreamer`: name, size and the bytes to send. -/
structure FileStreamer where
  Name : String
  Size : Int
  content : List Nat
  deriving DecidableEq, Repr

/-- Errors: the host's sentinels `errs.NotFile`, `errs.ObjectNotFound`,
`errs.NotImplement`, and the shapes built with `fmt.Errorf`
(`what` is the text before the verb). -/
inductive Err where
  | NotFile
  | ObjectNotFound
  | NotImplement
  | transport (what : String) (cause : String)
  | status (what : String) (code : Nat) (body : String)
  | parse (what : String)
  | wrap (what : String) (inner : Err)
  deriving DecidableEq, Repr

/-- How a call of an operation ends: a value, an `error`, or a runtime panic. -/
inductive Result (α : Type) where
  | ok (a : α)
  | err (e : Err)
  | panic (msg : String)
  deriving DecidableEq, Repr

/-! ## The remote service and the driver -/

/-- The remote side and the library decoders. `respond hist req` is the reply
to `req` when `hist` are the requests issued before it; `clock hist` is what
the `time.Now()` of `authenticate` and `refreshAccessToken` reads once `hist`
have been issued. -/
structure Env where
  respond : List Request → Request → Reply
  clock : List Request → Int
  decodeAuth : String → Option AuthResponse
  decodeRefresh : String → Option RefreshTokenResponse
  decodeList : String → Option (List FileEntry)
  decodeLink : String → Option String
  decodeFirstUpload : String → Option FirstUploadResponse
  parseTime : String → Option Int

/-- Everything observable outside the driver: the requests issued, oldest
first, and the progress reports made to the host. -/
structure World where
  log : List Request
  progress : List (Int × Int)
  deriving DecidableEq, Repr

/-- The struct `Szczk` (with its embedded `Addition`). -/
structure Szczk where
  APIKey : String
  APISecret : String
  RootFolderID : String
  AuthURL : String
  BaseURL : String
  accessToken : String
  refreshToken : String
  tokenExpiresAt : Int
  deriving DecidableEq, Repr

/-- Issue one request: the reply comes from the environment and the request is logged. -/
def send (env : Env) (w : World) (req : Request) : Reply × World :=
  (env.respond w.log req, { w with log := w.log ++ [req] })

/-- The request of `authenticate`. -/
def authRequest (d : Szczk) : Request :=
  { method := "GET", url := d.AuthURL ++ "/authenticate", auth := none,
    query := [("api_key", d.APIKey), ("api_secret", d.APISecret)],
    body := none, file := none }

/-- The method `authenticate`: `none` is a nil error. -/
def authenticate (env : Env) (d : Szczk) (w : World) : Option Err × Szczk × World :=
  match send env w (authRequest d) with
  | (Reply.failure cause, w1) => (some (Err.transport "authentication request failed" cause), d, w1)
  | (Reply.response status body, w1) =>
    if IsError status then
      (some (Err.status "authentication failed" status (respString body)), d, w1)
    else
      match env.decodeAuth body with
      | none => (some (Err.parse "failed to parse authentication response"), d, w1)
      | some authResp =>
        (none,
         { d with accessToken := authResp.AccessToken,
                  refreshToken := authResp.RefreshToken,
                  tokenExpiresAt := Time.Add (env.clock w1.log) (secondsToDuration authResp.ExpiresIn) },
         w1)

/-- The request of `refreshAccessToken`. -/
def refreshRequest (d : Szczk) : Request :=
  { method := "POST", url := d.AuthURL ++ "/refresh_token",
    auth := some ("Bearer " ++ d.accessToken), query := [],
    body := some [("refresh_token", Value.str d.refreshToken)], file := none }

/-- The method `refreshAccessToken`: `none` is a nil error. -/
def refreshAccessToken (env : Env) (d : Szczk) (w : World) : Option Err × Szczk × World :=
  match send env w (refreshRequest d) with
  | (Reply.failure cause, w1) => (some (Err.transport "token refresh request failed" cause), d, w1)
  | (Reply.response status body, w1) =>
    if IsError status then
      (some (Err.status "token refresh failed" status (respString body)), d, w1)
    else
      match env.decodeRefresh body with
      | none => (some (Err.parse "failed to parse token refresh response"), d, w1)
      | some refreshResp =>
        (none,
         { d with accessToken := refreshResp.AccessToken,
                  tokenExpiresAt := Time.Add (env.clock w1.log) (secondsToDuration refreshResp.ExpiresIn) },
         w1)

/-- The interval `startTokenRefresh` computes, before the loop and again after
every tick: `tokenExpiresAt.Sub(time.Now()) - 5*time.Minute`, replaced by one
minute when negative. -/
def refreshInterval (tokenExpiresAt now : Int) : Int :=
  let refreshInterval := wrap64 (Time.Sub tokenExpiresAt now - 5 * Minute)
  if refreshInterval < 0 then 1 * Minute else refreshInterval

/-- The body of the `case <-ticker.C` branch of `startTokenRefresh`: refresh,
fall back to `authenticate` when that fails, and compute the interval the
ticker is reset to. `now` is what the `time.Now()` of that computation reads:
a reading of its own, taken after the ones that stamp the expiry inside
`refreshAccessToken` and `authenticate`. -/
def tick (env : Env) (d : Szczk) (w : World) (now : Int) : Int × Szczk × World :=
  match refreshAccessToken env d w with
  | (none, d1, w1) => (refreshInterval d1.tokenExpiresAt now, d1, w1)
  | (some _, d1, w1) =>
    match authenticate env d1 w1 with
    | (_, d2, w2) => (refreshInterval d2.tokenExpiresAt now, d2, w2)

/-- Go `time.NewTicker`: the duration must be greater than zero, otherwise
`NewTicker` panics. The value is the period of the ticker. -/
def NewTicker (d : Int) : Result Int :=
  if d ≤ 0 then Result.panic "non-positive interval for NewTicker" else Result.ok d

/-- Go `Ticker.Reset`: the duration must be greater than zero, otherwise
`Reset` panics. The value is the new period. -/
def Ticker.Reset (d : Int) : Result Int :=
  if d ≤ 0 then Result.panic "non-positive interval for Ticker.Reset" else Result.ok d

/-- What the `select` of `startTokenRefresh` receives: the context is done, or
the ticker fires, in which case `now` is what `time.Now()` reads when the new
interval is computed. -/
inductive Event where
  | done
  | fire (now : Int)
  deriving DecidableEq, Repr

/-- The `for`/`select` loop of `startTokenRefresh` along the events it
receives: `some (Result.ok ())` when it returns on `ctx.Done()`,
`some (Result.panic _)` when resetting the ticker panics, `none` while it is
still waiting after the last event. -/
def refreshLoop (env : Env) : List Event → Szczk → World → Option (Result Unit) × Szczk × World
  | [], d, w => (none, d, w)
  | Event.done :: _, d, w => (some (Result.ok ()), d, w)
  | Event.fire now :: rest, d, w =>
    match tick env d w now with
    | (newRefreshInterval, d1, w1) =>
      match Ticker.Reset newRefreshInterval with
      | Result.ok _ => refreshLoop env rest d1 w1
      | Result.err e => (some (Result.err e), d1, w1)
      | Result.panic msg => (some (Result.panic msg), d1, w1)

/-- The method `startTokenRefresh` along the events its `select` receives: the
ticker is created with the interval computed from the current expiry and
`now`, the reading of `time.Now()` at that point, then the loop runs. -/
def startTokenRefresh (env : Env) (d : Szczk) (w : World) (now : Int) (events : List Event) :
    Option (Result Unit) × Szczk × World :=
  match NewTicker (refreshInterval d.tokenExpiresAt now) with
  | Result.ok _ => refreshLoop env events d w
  | Result.err e => (some (Result.err e), d, w)
  | Result.panic msg => (some (Result.panic msg), d, w)

/-- The request `makeRequest` builds. -/
def apiRequest (d : Szczk) (method path : String) (body : Option Payload) : Request :=
  { method := method, url := path, auth := some ("Bearer " ++ d.accessToken),
    query := [], body := body, file := none }

/-- The helper `makeRequest`. The Go function calls itself; `fuel` bounds the
depth of that recursion, and `none` means the bound was reached before any
call returned. -/
def makeRequest (env : Env) : Nat → Szczk → World → String → String → Option Payload →
    Option (Result Response) × Szczk × World
  | 0, d, w, _, _, _ => (none, d, w)
  | fuel + 1, d, w, method, path, body =>
    match send env w (apiRequest d method path body) with
    | (Reply.failure cause, w1) =>
      (some (Result.err (Err.transport "API request failed" cause)), d, w1)
    | (Reply.response status rbody, w1) =>
      if IsError status then
        if status = StatusUnauthorized ∨ status = StatusForbidden then
          match refreshAccessToken env d w1 with
          | (some e, d2, w2) =>
            (some (Result.err (Err.wrap "failed to refresh token after unauthorized response" e)), d2, w2)
          | (none, d2, w2) => makeRequest env fuel d2 w2 method path body
        else
          (some (Result.err (Err.status "API request failed" status (respString rbody))), d, w1)
      else
        (some (Result.ok { status := status, body := rbody }), d, w1)

/-! ## Object operations (`driver.go`) -/

/-- A slice of host objects, `[]model.Obj`. -/
abbrev Objs := List Object

/-- A decoded `files` array. -/
abbrev Files := List FileEntry

/-- The request of `List`. -/
def listRequest (d : Szczk) (folderID : String) : Request :=
  { method := "GET", url := "/list_files", auth := some ("Bearer " ++ d.accessToken),
    query := [("folder_id", folderID)], body := none, file := none }

/-- The object `List` builds for one entry of `files` in a folder whose path is
`dirPath`. `time.Parse` yields the zero `Time` when it fails, and its error is
discarded. -/
def toObject (env : Env) (dirPath : String) (file : FileEntry) : Object :=
  { ID := file.ID,
    Name := file.Name,
    Size := file.Size,
    IsFolder := file.IsFolder,
    Modified := (env.parseTime file.ModifiedAt).getD 0,
    Path := dirPath ++ "/" ++ file.Name }

/-- The loop of `List` over `listResp.Files`, appending to `objs`. Each
iteration calls `dir.GetPath()`, which panics on a nil `dir`. -/
def listLoop (env : Env) (dir : Option Object) : Files → Objs → Result Objs
  | [], objs => Result.ok objs
  | file :: rest, objs =>
    match dir with
    | none => Result.panic "invalid memory address or nil pointer dereference"
    | some o => listLoop env dir rest (objs ++ [toObject env o.Path file])

/-- The `folderID` of `List`: the root folder, replaced by `dir.GetID()` when
`dir` is not nil. -/
def folderID (d : Szczk) (dir : Option Object) : String :=
  match dir with
  | some o => o.ID
  | none => d.RootFolderID

/-- The method `List`; `dir = none` is a nil `dir`. -/
def Szczk.List (d : Szczk) (env : Env) (w : World) (dir : Option Object) : Result Objs × World :=
  match send env w (listRequest d (folderID d dir)) with
  | (Reply.failure cause, w1) => (Result.err (Err.transport "failed to list files" cause), w1)
  | (Reply.response status body, w1) =>
    if IsError status then
      (Result.err (Err.status "failed to list files" status (respString body)), w1)
    else
      match env.decodeList body with
      | none => (Result.err (Err.parse "failed to parse list files response"), w1)
      | some files => (listLoop env dir files [], w1)

/-- The request of `Link`. -/
def linkRequest (d : Szczk) (fileID : String) : Request :=
  { method := "GET", url := "/get_download_url", auth := some ("Bearer " ++ d.accessToken),
    query := [("file_id", fileID)], body := none, file := none }

/-- The method `Link`. -/
def Szczk.Link (d : Szczk) (env : Env) (w : World) (file : Object) : Result Link × World :=
  if file.IsFolder then (Result.err Err.NotFile, w)
  else
    match send env w (linkRequest d file.ID) with
    | (Reply.failure cause, w1) => (Result.err (Err.transport "failed to get download link" cause), w1)
    | (Reply.response status body, w1) =>
      if IsError status then
        (Result.err (Err.status "failed to get download link" status (respString body)), w1)
      else
        match env.decodeLink body with
        | none => (Result.err (Err.parse "failed to parse download link response"), w1)
        | some url => (Result.ok { URL := url }, w1)

/-- The method `MakeDir`. -/
def Szczk.MakeDir (_d : Szczk) (w : World) (_parentDir : Object) (_dirName : String) :
    Result Unit × World :=
  (Result.err Err.NotImplement, w)

/-- A bearer-authenticated `POST` with a JSON body. -/
def postRequest (d : Szczk) (url : String) (body : Payload) : Request :=
  { method := "POST", url := url, auth := some ("Bearer " ++ d.accessToken),
    query := [], body := some body, file := none }

/-- The shared shape of `Rename`, `Move` and `Remove`: one call, an error for a
transport failure or an error status, nil otherwise. -/
def simpleCall (env : Env) (w : World) (req : Request) (what : String) : Result Unit × World :=
  match send env w req with
  | (Reply.failure cause, w1) => (Result.err (Err.transport what cause), w1)
  | (Reply.response status body, w1) =>
    if IsError status then (Result.err (Err.status what status (respString body)), w1)
    else (Result.ok (), w1)

/-- The request of `Rename`. -/
def renameRequest (d : Szczk) (srcObj : Object) (newName : String) : Request :=
  postRequest d "/rename_item" [("item_id", Value.str srcObj.ID), ("new_name", Value.str newName)]

/-- The method `Rename`. -/
def Szczk.Rename (d : Szczk) (env : Env) (w : World) (srcObj : Object) (newName : String) :
    Result Unit × World :=
  simpleCall env w (renameRequest d srcObj newName) "failed to rename item"

/-- The request of `Move`. -/
def moveRequest (d : Szczk) (srcObj dstDir : Object) : Request :=
  postRequest d "/move_item"
    [("item_id", Value.str srcObj.ID), ("destination_folder_id", Value.str dstDir.ID)]

/-- The method `Move`. -/
def Szczk.Move (d : Szczk) (env : Env) (w : World) (srcObj dstDir : Object) : Result Unit × World :=
  simpleCall env w (moveRequest d srcObj dstDir) "failed to move item"

/-- The request of `Remove`. -/
def removeRequest (d : Szczk) (obj : Object) : Request :=
  postRequest d "/delete_item" [("item_id", Value.str obj.ID)]

/-- The method `Remove`. -/
def Szczk.Remove (d : Szczk) (env : Env) (w : World) (obj : Object) : Result Unit × World :=
  simpleCall env w (removeRequest d obj) "failed to delete item"

/-- Step 1 of `Put`: the call to `/first_upload`. -/
def firstUploadRequest (d : Szczk) (dstDir : Object) (file : FileStreamer) : Request :=
  postRequest d "/first_upload"
    [("parent_folder_id", Value.str dstDir.ID), ("file_name", Value.str file.Name),
     ("file_size", Value.int file.Size)]

/-- Step 2 of `Put`: the multipart `POST` of the content to the upload URL, on a
fresh client (no base URL, no `Authorization` header). -/
def uploadRequest (uploadURL : String) (file : FileStreamer) : Request :=
  { method := "POST", url := uploadURL, auth := none, query := [], body := none,
    file := some ("file", file.Name) }

/-- Step 3 of `Put`: the call to `/ok_upload`. -/
def okUploadRequest (d : Szczk) (uploadToken : String) : Request :=
  postRequest d "/ok_upload" [("upload_token", Value.str uploadToken)]

/-- The method `Put`; `up` says whether a progress callback was supplied (`up != nil`). -/
def Szczk.Put (d : Szczk) (env : Env) (w : World) (dstDir : Object) (file : FileStreamer)
    (up : Bool) : Result Unit × World :=
  match send env w (firstUploadRequest d dstDir file) with
  | (Reply.failure cause, w1) =>
    (Result.err (Err.transport "failed to initiate upload (first_upload)" cause), w1)
  | (Reply.response status1 body1, w1) =>
    if IsError status1 then
      (Result.err (Err.status "failed to initiate upload" status1 (respString body1)), w1)
    else
      match env.decodeFirstUpload body1 with
      | none => (Result.err (Err.parse "failed to parse first_upload response"), w1)
      | some firstUploadData =>
        match send env w1 (uploadRequest firstUploadData.UploadURL file) with
        | (Reply.failure cause, w2) =>
          (Result.err (Err.transport "failed to upload file content" cause), w2)
        | (Reply.response status2 body2, w2) =>
          if IsError status2 then
            (Result.err (Err.status "failed to upload file content" status2 (respString body2)), w2)
          else
            match send env w2 (okUploadRequest d firstUploadData.UploadToken) with
            | (Reply.failure cause, w3) =>
              (Result.err (Err.transport "failed to finalize upload (ok_upload)" cause), w3)
            | (Reply.response status3 body3, w3) =>
              if IsError status3 then
                (Result.err (Err.status "failed to finalize upload" status3 (respString body3)), w3)
              else if up then
                (Result.ok (), { w3 with progress := w3.progress ++ [(file.Size, file.Size)] })
              else
                (Result.ok (), w3)

/-- A call succeeded in the sense of the checks `err != nil` and
`resp.IsError()`: a response arrived and its status is not an error status. -/
def succeeded : Reply → Bool
  | Reply.failure _ => false
  | Reply.response status _ => !IsError status

/-- The upload session that the negotiate step of `Put` obtains, if that step
succeeds: the call succeeded and its body decodes. -/
def negotiated (env : Env) (d : Szczk) (w : World) (dstDir : Object) (file : FileStreamer) :
    Option FirstUploadResponse :=
  match env.respond w.log (firstUploadRequest d dstDir file) with
  | Reply.failure _ => none
  | Reply.response status body => if IsError status then none else env.decodeFirstUpload body

/-- Position of the last occurrence of `c` in `cs`, if there is one. -/
def lastIndexOf (c : Char) : List Char → Option Nat
  | [] => none
  | x :: xs =>
    match lastIndexOf c xs with
    | some i => some (i + 1)
    | none => if x = c then some 0 else none

/-- The call `strings.LastIndex(path, "/")`; `none` stands for `-1`. -/
def LastIndex (path : String) : Option Nat := lastIndexOf '/' path.data

/-- The pair `(parentPath, fileName)` that `Get` computes from `path`. -/
def splitPath (path : String) : String × String :=
  match LastIndex path with
  | none => ("/", path)
  | some lastSlash => (String.mk (path.data.take lastSlash), String.mk (path.data.drop (lastSlash + 1)))

/-- The `parentFolderID` that `Get` computes: the root folder for the parent
path `"/"`, and otherwise the whole `path` (the placeholder of the source). -/
def parentFolderID (d : Szczk) (path : String) : String :=
  if (splitPath path).1 ≠ "/" then path else d.RootFolderID

/-- The `parentObj` that `Get` hands to `List`. -/
def parentObj (d : Szczk) (path : String) : Object :=
  { ID := parentFolderID d path, Path := (splitPath path).1, IsFolder := true,
    Name := "", Size := 0, Modified := 0 }

/-- The method `Get`. -/
def Szczk.Get (d : Szczk) (env : Env) (w : World) (path : String) : Result Object × World :=
  match d.List env w (some (parentObj d path)) with
  | (Result.err e, w1) =>
    (Result.err (Err.wrap "failed to list parent directory for Get operation" e), w1)
  | (Result.panic msg, w1) => (Result.panic msg, w1)
  | (Result.ok files, w1) =>
    match files.find? (fun file => decide (file.Name = (splitPath path).2)) with
    | some file => (Result.ok file, w1)
    | none => (Result.err Err.ObjectNotFound, w1)

/-! ## Specification-side notions -/

/-- The final segment of a path in the words of the specification: what
follows the last separator, the whole path when it has no separator. -/
def finalSegment (path : String) : String :=
  String.mk ((path.data.reverse.takeWhile (fun c => c ≠ '/')).reverse)

/-- An entry of the response and the object returned for it agree on id, name,
size and folder flag, and the modification time is the parsed `modified_at`,
or the zero time when it does not parse. -/
def carries (env : Env) (e : FileEntry) (obj : Object) : Prop :=
  obj.ID = e.ID ∧ obj.Name = e.Name ∧ obj.Size = e.Size ∧ obj.IsFolder = e.IsFolder ∧
  (env.parseTime e.ModifiedAt = none → obj.Modified = 0) ∧
  (∀ t, env.parseTime e.ModifiedAt = some t → obj.Modified = t)

/-! ## Counting calls -/

/-- Number of requests in a log whose URL is `url`. -/
def countCalls (url : String) (log : List Request) : Nat :=
  log.countP (fun r => decide (r.url = url))

/-! ## Concrete scenarios -/

/-- A driver configured with root folder `"root"`, holding a token pair. -/
def d0 : Szczk :=
  { APIKey := "key", APISecret := "secret", RootFolderID := "root",
    AuthURL := "https://auth.example", BaseURL := "https://api.example",
    accessToken := "t0", refreshToken := "r0", tokenExpiresAt := 0 }

/-- Nothing issued yet. -/
def w0 : World := { log := [], progress := [] }

/-- The entry of the listing scenario: the file `doc.txt`. -/
def docEntry : FileEntry :=
  { ID := "1", Name := "doc.txt", Size := 10, IsFolder := false,
    ModifiedAt := "2024-01-01T00:00:00Z" }

/-- The remote side of the scenarios, up to its replies `respond`. The clock
starts on 2024-01-01 and advances one second per request. The body `"tokens"`
decodes to a token pair valid for an hour, `"stale"` to a token pair with
`expires_in = -9223372036`, `"forever"` to a refreshed token with
`expires_in = 9223372037`, `"short"` to a refreshed token with
`expires_in = 300`, `"listing"` to the listing with `doc.txt`, `"ab"` to
a listing with `a.txt` and `b.txt`, `"link"` to a download link and `"session"`
to an upload session. The one timestamp that parses is the one of `docEntry`. -/
def scenarioEnv (respond : List Request → Request → Reply) : Env :=
  { respond := respond,
    clock := fun hist => 63839664000 * Second + hist.length * Second,
    decodeAuth := fun b =>
      if b = "tokens" then some { AccessToken := "t1", RefreshToken := "r1", ExpiresIn := 3600 }
      else if b = "stale" then
        some { AccessToken := "t1", RefreshToken := "r1", ExpiresIn := -9223372036 }
      else none,
    decodeRefresh := fun b =>
      if b = "tokens" then some { AccessToken := "t1", ExpiresIn := 3600 }
      else if b = "forever" then some { AccessToken := "t1", ExpiresIn := 9223372037 }
      else if b = "short" then some { AccessToken := "t1", ExpiresIn := 300 }
      else none,
    decodeList := fun b =>
      if b = "listing" then some [docEntry]
      else if b = "ab" then
        some [{ ID := "7", Name := "a.txt", Size := 1, IsFolder := false, ModifiedAt := "yesterday" },
              { ID := "8", Name := "b.txt", Size := 2, IsFolder := false, ModifiedAt := "" }]
      else none,
    decodeLink := fun b => if b = "link" then some "https://cdn.example/doc" else none,
    decodeFirstUpload := fun b =>
      if b = "session" then some { UploadURL := "https://up.example/u", UploadToken := "ut" }
      else none,
    parseTime := fun t => if t = "2024-01-01T00:00:00Z" then some 63839664000000000000 else none }

/-- A remote side on which every refresh succeeds and every other call answers 401. -/
def envAlways401 : Env :=
  scenarioEnv (fun _ req =>
    if req.url = "https://auth.example/refresh_token" then Reply.response 200 "tokens"
    else Reply.response 401 "")

/-- The root folder as the host hands it to `List`. -/
def rootDir : Object :=
  { ID := "root", Path := "/", Name := "", Size := 0, Modified := 0, IsFolder := true }

/-- A remote side whose first call finds the token expired (401), on which a
refresh succeeds, and which answers every later `/list_files` with the listing. -/
def envExpiredOnce : Env :=
  scenarioEnv (fun hist req =>
    if req.url = "https://auth.example/refresh_token" then Reply.response 200 "tokens"
    else if hist = [] then Reply.response 401 ""
    else if req.url = "/list_files" then Reply.response 200 "listing"
    else Reply.response 404 "")

/-- A file to upload. -/
def someFile : FileStreamer := { Name := "doc.txt", Size := 3, content := [100, 111, 99] }

/-- A remote side that opens an upload session, answers the transfer with
`transferStatus`, and answers everything else with 200. -/
def envUpload (transferStatus : Nat) : Env :=
  scenarioEnv (fun _ req =>
    if req.url = "/first_upload" then Reply.response 200 "session"
    else if req.url = "https://up.example/u" then Reply.response transferStatus ""
    else Reply.response 200 "")

/-- A remote side that answers every call with the listing of `a.txt` and `b.txt`. -/
def envAB : Env := scenarioEnv (fun _ _ => Reply.response 200 "ab")

/-- A remote side that answers every call with the listing of `doc.txt`. -/
def envListing : Env := scenarioEnv (fun _ _ => Reply.response 200 "listing")

/-- A remote side that answers every call with a 200 whose body is `body`. -/
def envAnswering (body : String) : Env := scenarioEnv (fun _ _ => Reply.response 200 body)

/-- A driver whose token expires exactly five minutes after the first clock
reading of the scenarios. -/
def dFiveMinutes : Szczk :=
  { d0 with tokenExpiresAt := 63839664000 * Second + 5 * Minute }

/-- A driver whose token expires an hour after the first clock reading of the
scenarios. -/
def dOneHour : Szczk :=
  { d0 with tokenExpiresAt := 63839664000 * Second + 3600 * Second }

/-- The folder `/parent` as the remote side knows it: its identifier is `"p1"`. -/
def parentDir : Object :=
  { ID := "p1", Path := "/parent", Name := "parent", Size := 0, Modified := 0, IsFolder := true }

/-- A remote side that addresses folders by identifier: `/list_files` with
`folder_id=p1` answers the listing of `a.txt` and `b.txt`, and any other
`folder_id` is unknown to it and answered with 404. -/
def envParent : Env :=
  scenarioEnv (fun _ req =>
    if req.query = [("folder_id", "p1")] then Reply.response 200 "ab"
    else Reply.response 404 " unknown folder \n")

/-! # Theorems -/

/-! ## Counting calls -/

theorem countCalls_append (url : String) (l₁ l₂ : List Request) :
    countCalls url (l₁ ++ l₂) = countCalls url l₁ + countCalls url l₂ := by
  simp [countCalls, List.countP_append]

theorem countCalls_single_same (url : String) (r : Request) (h : r.url = url) :
    countCalls url [r] = 1 := by
  simp [countCalls, List.countP_cons, h]

theorem countCalls_single_other (url : String) (r : Request) (h : r.url ≠ url) :
    countCalls url [r] = 0 := by
  simp [countCalls, List.countP_cons, h]

/-! ## `refreshAccessToken` -/

/-- A refresh that is answered with a success status and a decodable body. -/
theorem refreshAccessToken_success (env : Env) (d : Szczk) (w : World) (status : Nat)
    (body : String) (r : RefreshTokenResponse)
    (hreply : env.respond w.log (refreshRequest d) = Reply.response status body)
    (hstatus : IsError status = false)
    (hdecode : env.decodeRefresh body = some r) :
    refreshAccessToken env d w =
      (none,
       { d with accessToken := r.AccessToken,
                tokenExpiresAt :=
                  Time.Add (env.clock (w.log ++ [refreshRequest d])) (secondsToDuration r.ExpiresIn) },
       { w with log := w.log ++ [refreshRequest d] }) := by
  simp [refreshAccessToken, send, hreply, hstatus, hdecode]

/-! ## `makeRequest` under persistent authorization failure -/

/-- C1 (the code does not do this): when every call to the endpoint answers 401
and every refresh succeeds, `makeRequest` never returns. Whatever bound `fuel`
is put on the depth of its recursion, it is still retrying when the bound is
reached (`none`), having issued `fuel` requests to the endpoint and `fuel`
refreshes: neither "one refresh and one retry" nor "at most two requests". -/
theorem makeRequest_persistent_401 (env : Env) (method path : String) (body : Option Payload)
    (authURL : String)
    (hpath : path ≠ authURL ++ "/refresh_token")
    (h401 : ∀ hist req, req.url = path → ∃ b, env.respond hist req = Reply.response 401 b)
    (hrefresh : ∀ hist req, req.url = authURL ++ "/refresh_token" →
      ∃ b r, env.respond hist req = Reply.response 200 b ∧ env.decodeRefresh b = some r)
    (fuel : Nat) :
    ∀ (d : Szczk) (w : World), d.AuthURL = authURL →
      (makeRequest env fuel d w method path body).1 = none ∧
      countCalls path (makeRequest env fuel d w method path body).2.2.log
        = countCalls path w.log + fuel ∧
      countCalls (authURL ++ "/refresh_token") (makeRequest env fuel d w method path body).2.2.log
        = countCalls (authURL ++ "/refresh_token") w.log + fuel := by
  induction fuel with
  | zero => intro d w _; simp [makeRequest]
  | succ n ih =>
    intro d w hd
    obtain ⟨b, hb⟩ := h401 w.log (apiRequest d method path body) rfl
    obtain ⟨b2, r, hb2, hr⟩ :=
      hrefresh (w.log ++ [apiRequest d method path body]) (refreshRequest d)
        (by simp [refreshRequest, hd])
    have href := refreshAccessToken_success env d
      { w with log := w.log ++ [apiRequest d method path body] } 200 b2 r hb2 (by decide) hr
    have hstep : ∃ d2 w2, d2.AuthURL = authURL ∧
        w2.log = w.log ++ [apiRequest d method path body] ++ [refreshRequest d] ∧
        makeRequest env (n + 1) d w method path body = makeRequest env n d2 w2 method path body := by
      refine ⟨{ d with accessToken := r.AccessToken,
                       tokenExpiresAt :=
                         Time.Add (env.clock (w.log ++ [apiRequest d method path body] ++ [refreshRequest d]))
                           (secondsToDuration r.ExpiresIn) },
              { w with log := w.log ++ [apiRequest d method path body] ++ [refreshRequest d] },
              hd, rfl, ?_⟩
      simp only [makeRequest, send, hb]
      simp [IsError, StatusUnauthorized, href]
    obtain ⟨d2, w2, hd2, hw2, hstep⟩ := hstep
    rw [hstep]
    obtain ⟨h1, h2, h3⟩ := ih d2 w2 hd2
    refine ⟨h1, ?_, ?_⟩
    · rw [h2, hw2, countCalls_append, countCalls_append,
        countCalls_single_same path (apiRequest d method path body) rfl,
        countCalls_single_other path (refreshRequest d)
          (by simp only [refreshRequest, hd]; exact fun h => hpath h.symm)]
      omega
    · rw [h3, hw2, countCalls_append, countCalls_append,
        countCalls_single_other _ (apiRequest d method path body) (by simpa [apiRequest] using hpath),
        countCalls_single_same _ (refreshRequest d) (by simp [refreshRequest, hd])]
      omega

/-- C1, at a concrete remote side: with a bound of 3 the helper has issued 3
requests and 3 refreshes and has not returned. -/
theorem makeRequest_persistent_401_witness :
    (makeRequest envAlways401 3 d0 w0 "GET" "/list_files" none).1 = none ∧
    countCalls "/list_files" (makeRequest envAlways401 3 d0 w0 "GET" "/list_files" none).2.2.log
      = countCalls "/list_files" w0.log + 3 ∧
    countCalls ("https://auth.example" ++ "/refresh_token")
        (makeRequest envAlways401 3 d0 w0 "GET" "/list_files" none).2.2.log
      = countCalls ("https://auth.example" ++ "/refresh_token") w0.log + 3 :=
  makeRequest_persistent_401 envAlways401 "GET" "/list_files" none "https://auth.example"
    (by decide)
    (fun _ req h => ⟨"", by
      have hne : req.url ≠ "https://auth.example/refresh_token" := by rw [h]; decide
      simp [envAlways401, scenarioEnv, hne]⟩)
    (fun _ req h => ⟨"tokens", { AccessToken := "t1", ExpiresIn := 3600 }, by
      have he : req.url = "https://auth.example/refresh_token" := by rw [h]; decide
      simp [envAlways401, scenarioEnv, he]⟩)
    3 d0 w0 rfl

/-- When the token is rejected once and the refresh succeeds, `makeRequest`
returns the response of its second request: a recursion depth of 2 is enough. -/
theorem makeRequest_retry_succeeds :
    (makeRequest envExpiredOnce 2 d0 w0 "GET" "/list_files" none).1
      = some (Result.ok { status := 200, body := "listing" }) := by
  decide

/-! ## The object operations call the remote side directly -/

theorem simpleCall_error_status (env : Env) (w : World) (req : Request) (what : String)
    (status : Nat) (body : String) (hstatus : IsError status = true)
    (hreply : env.respond w.log req = Reply.response status body) :
    simpleCall env w req what =
      (Result.err (Err.status what status (respString body)), { w with log := w.log ++ [req] }) := by
  simp [simpleCall, send, hreply, hstatus]

/-- The scenario of an expired token: the first `/list_files` call answers
401, the refresh that `makeRequest` would make succeeds and the call issued
after it answers 200 with a decodable listing, and `List` returns the 401 as an
error, having issued one request and no refresh. -/
theorem List_no_retry_counterexample :
    envExpiredOnce.respond w0.log (listRequest d0 (folderID d0 (some rootDir)))
      = Reply.response 401 "" ∧
    (∃ d1 w1,
      refreshAccessToken envExpiredOnce d0 (send envExpiredOnce w0 (listRequest d0 "root")).2
        = (none, d1, w1) ∧
      envExpiredOnce.respond w1.log (listRequest d1 "root") = Reply.response 200 "listing" ∧
      envExpiredOnce.decodeList "listing" = some [docEntry]) ∧
    d0.List envExpiredOnce w0 (some rootDir) =
      (Result.err (Err.status "failed to list files" 401 ""),
       { log := [listRequest d0 "root"], progress := [] }) := by
  refine ⟨by decide, ⟨_, _, rfl, by decide, by decide⟩, by decide⟩

/-- C2 (the code does not do this): no object operation goes through
`makeRequest`. When the call of an operation is answered with an error status
(401 and 403 among them), the operation returns that status, with the trimmed
body, as an error after this single call: the log grows by that one request,
so no refresh and no retry is made. This holds for
`List` on every folder, for `Link` on every file, for `Rename`, `Move` and
`Remove`, and for the negotiate and the finalize step of `Put`. -/
theorem operations_do_not_retry (env : Env) (d : Szczk) (w : World) (status : Nat) (body : String)
    (hstatus : IsError status = true) :
    (∀ dir, env.respond w.log (listRequest d (folderID d dir)) = Reply.response status body →
      d.List env w dir =
        (Result.err (Err.status "failed to list files" status (respString body)),
         { w with log := w.log ++ [listRequest d (folderID d dir)] })) ∧
    (∀ file, file.IsFolder = false →
      env.respond w.log (linkRequest d file.ID) = Reply.response status body →
      d.Link env w file =
        (Result.err (Err.status "failed to get download link" status (respString body)),
         { w with log := w.log ++ [linkRequest d file.ID] })) ∧
    (∀ srcObj newName,
      env.respond w.log (renameRequest d srcObj newName) = Reply.response status body →
      d.Rename env w srcObj newName =
        (Result.err (Err.status "failed to rename item" status (respString body)),
         { w with log := w.log ++ [renameRequest d srcObj newName] })) ∧
    (∀ srcObj dstDir,
      env.respond w.log (moveRequest d srcObj dstDir) = Reply.response status body →
      d.Move env w srcObj dstDir =
        (Result.err (Err.status "failed to move item" status (respString body)),
         { w with log := w.log ++ [moveRequest d srcObj dstDir] })) ∧
    (∀ obj, env.respond w.log (removeRequest d obj) = Reply.response status body →
      d.Remove env w obj =
        (Result.err (Err.status "failed to delete item" status (respString body)),
         { w with log := w.log ++ [removeRequest d obj] })) ∧
    (∀ dstDir file up,
      env.respond w.log (firstUploadRequest d dstDir file) = Reply.response status body →
      d.Put env w dstDir file up =
        (Result.err (Err.status "failed to initiate upload" status (respString body)),
         { w with log := w.log ++ [firstUploadRequest d dstDir file] })) ∧
    (∀ dstDir file up status1 body1 session status2 body2,
      env.respond w.log (firstUploadRequest d dstDir file) = Reply.response status1 body1 →
      IsError status1 = false →
      env.decodeFirstUpload body1 = some session →
      env.respond (w.log ++ [firstUploadRequest d dstDir file])
        (uploadRequest session.UploadURL file) = Reply.response status2 body2 →
      IsError status2 = false →
      env.respond (w.log ++ [firstUploadRequest d dstDir file, uploadRequest session.UploadURL file])
        (okUploadRequest d session.UploadToken) = Reply.response status body →
      d.Put env w dstDir file up =
        (Result.err (Err.status "failed to finalize upload" status (respString body)),
         { w with log := w.log ++ [firstUploadRequest d dstDir file,
             uploadRequest session.UploadURL file, okUploadRequest d session.UploadToken] })) := by
  refine ⟨?_, ?_, ?_, ?_, ?_, ?_, ?_⟩
  · intro dir h
    simp [Szczk.List, send, h, hstatus]
  · intro file hf h
    simp [Szczk.Link, send, h, hstatus, hf]
  · intro srcObj newName h
    exact simpleCall_error_status env w _ _ status body hstatus h
  · intro srcObj dstDir h
    exact simpleCall_error_status env w _ _ status body hstatus h
  · intro obj h
    exact simpleCall_error_status env w _ _ status body hstatus h
  · intro dstDir file up h
    simp [Szczk.Put, send, h, hstatus]
  · intro dstDir file up status1 body1 session status2 body2 h1 hs1 hdec h2 hs2 h3
    simp [Szczk.Put, send, h1, hs1, hdec, h2, hs2, h3, hstatus]

/-- C2, at the 401 of the scenario. -/
theorem operations_do_not_retry_witness :
    IsError 401 = true ∧
    d0.List envExpiredOnce w0 (some rootDir) =
      (Result.err (Err.status "failed to list files" 401 ""),
       { w0 with log := w0.log ++ [listRequest d0 (folderID d0 (some rootDir))] }) :=
  ⟨by decide,
   (operations_do_not_retry envExpiredOnce d0 w0 401 "" (by decide)).1 (some rootDir) (by decide)⟩

/-! ## `Put` -/

/-- C3 (fails as stated): the transfer is answered with 304, which is not a
2xx status, and `Put` goes on to call `/ok_upload` and returns success. -/
theorem Put_transfer_304_counterexample :
    (envUpload 304).respond [firstUploadRequest d0 rootDir someFile]
        (uploadRequest "https://up.example/u" someFile) = Reply.response 304 "" ∧
    ¬ (200 ≤ 304 ∧ 304 < 300) ∧
    d0.Put (envUpload 304) w0 rootDir someFile true =
      (Result.ok (),
       { log := [firstUploadRequest d0 rootDir someFile,
                 uploadRequest "https://up.example/u" someFile,
                 okUploadRequest d0 "ut"],
         progress := [(3, 3)] }) := by
  refine ⟨by decide, by decide, by decide⟩

/-- C3 (amended): `Put` runs negotiate, transfer, finalize in that order, where
a step fails when its call has a transport error or an error status (400 or
above), and negotiate also when its body does not decode.
If negotiate fails, `Put` returns an error having issued only the negotiate
call. If the transfer fails, `Put` returns an error having issued negotiate and
transfer only: no `/ok_upload` request. If finalize fails after a successful
transfer, `Put` returns an error. If all three succeed, `Put` returns success,
having issued exactly these three calls in order and reported progress once if
a callback was given. `Put` returns success only if all three succeeded. -/
theorem Put_phases (env : Env) (d : Szczk) (w : World) (dstDir : Object) (file : FileStreamer)
    (up : Bool) :
    (negotiated env d w dstDir file = none →
      ∃ e, d.Put env w dstDir file up =
        (Result.err e, { w with log := w.log ++ [firstUploadRequest d dstDir file] })) ∧
    (∀ session, negotiated env d w dstDir file = some session →
      (succeeded (env.respond (w.log ++ [firstUploadRequest d dstDir file])
          (uploadRequest session.UploadURL file)) = false →
        (∃ e, d.Put env w dstDir file up =
          (Result.err e,
           { w with log := w.log ++ [firstUploadRequest d dstDir file,
                                     uploadRequest session.UploadURL file] })) ∧
        ∀ token, okUploadRequest d token ∉
          [firstUploadRequest d dstDir file, uploadRequest session.UploadURL file]) ∧
      (succeeded (env.respond (w.log ++ [firstUploadRequest d dstDir file])
          (uploadRequest session.UploadURL file)) = true →
        (succeeded (env.respond
            (w.log ++ [firstUploadRequest d dstDir file, uploadRequest session.UploadURL file])
            (okUploadRequest d session.UploadToken)) = false →
          ∃ e, d.Put env w dstDir file up =
            (Result.err e,
             { w with log := w.log ++ [firstUploadRequest d dstDir file,
                 uploadRequest session.UploadURL file, okUploadRequest d session.UploadToken] })) ∧
        (succeeded (env.respond
            (w.log ++ [firstUploadRequest d dstDir file, uploadRequest session.UploadURL file])
            (okUploadRequest d session.UploadToken)) = true →
          d.Put env w dstDir file up =
            (Result.ok (),
             { log := w.log ++ [firstUploadRequest d dstDir file,
                 uploadRequest session.UploadURL file, okUploadRequest d session.UploadToken],
               progress := if up then w.progress ++ [(file.Size, file.Size)] else w.progress })))) ∧
    ((d.Put env w dstDir file up).1 = Result.ok () →
      ∃ session, negotiated env d w dstDir file = some session ∧
        succeeded (env.respond (w.log ++ [firstUploadRequest d dstDir file])
          (uploadRequest session.UploadURL file)) = true ∧
        succeeded (env.respond
          (w.log ++ [firstUploadRequest d dstDir file, uploadRequest session.UploadURL file])
          (okUploadRequest d session.UploadToken)) = true) := by
  unfold negotiated Szczk.Put send
  cases h1 : env.respond w.log (firstUploadRequest d dstDir file) with
  | failure cause => simp
  | response status1 body1 =>
    by_cases hs1 : IsError status1 = true
    · simp [hs1]
    · cases hdec : env.decodeFirstUpload body1 with
      | none => simp [hs1, hdec]
      | some session =>
        have hne : ∀ token, okUploadRequest d token ∉
            [firstUploadRequest d dstDir file, uploadRequest session.UploadURL file] := by
          intro token
          simp [okUploadRequest, firstUploadRequest, uploadRequest, postRequest]
        cases h2 : env.respond (w.log ++ [firstUploadRequest d dstDir file])
            (uploadRequest session.UploadURL file) with
        | failure cause => simpa [hs1, hdec, succeeded, h2] using hne
        | response status2 body2 =>
          by_cases hs2 : IsError status2 = true
          · simpa [hs1, hdec, succeeded, h2, hs2] using hne
          · cases h3 : env.respond
                (w.log ++ [firstUploadRequest d dstDir file, uploadRequest session.UploadURL file])
                (okUploadRequest d session.UploadToken) with
            | failure cause => simp [hs1, hdec, succeeded, h2, hs2, h3]
            | response status3 body3 =>
              by_cases hs3 : IsError status3 = true
              · simp [hs1, hdec, succeeded, h2, hs2, h3, hs3]
              · cases up <;> simp [hs1, hdec, succeeded, h2, hs2, h3, hs3]

/-- C3 (amended), at a transfer answered with 500: negotiate opened the
session, `Put` returns the failed transfer as an error, and the log holds the
negotiate and transfer calls only. -/
theorem Put_phases_witness :
    negotiated (envUpload 500) d0 w0 rootDir someFile
      = some { UploadURL := "https://up.example/u", UploadToken := "ut" } ∧
    (∃ e, d0.Put (envUpload 500) w0 rootDir someFile true =
      (Result.err e,
       { w0 with log := w0.log ++ [firstUploadRequest d0 rootDir someFile,
                                   uploadRequest "https://up.example/u" someFile] })) :=
  ⟨by decide,
   (((Put_phases (envUpload 500) d0 w0 rootDir someFile true).2.1
      { UploadURL := "https://up.example/u", UploadToken := "ut" } (by decide)).1 (by decide)).1⟩

/-! ## Paths -/

/-- What `lastIndexOf` computes: `none` exactly when the character does not
occur, and otherwise the length of the part before its last occurrence. -/
theorem lastIndexOf_spec (c : Char) (cs : List Char) :
    (lastIndexOf c cs = none ∧ c ∉ cs) ∨
    (∃ pre seg, cs = pre ++ c :: seg ∧ c ∉ seg ∧ lastIndexOf c cs = some pre.length) := by
  induction cs with
  | nil => left; simp [lastIndexOf]
  | cons x xs ih =>
    rcases ih with ⟨hnone, hnot⟩ | ⟨pre, seg, hxs, hseg, hidx⟩
    · by_cases hx : x = c
      · right
        refine ⟨[], xs, by simp [hx], hnot, ?_⟩
        simp [lastIndexOf, hnone, hx]
      · left
        refine ⟨by simp [lastIndexOf, hnone, hx], ?_⟩
        simp only [List.mem_cons, not_or]
        exact ⟨fun h => hx h.symm, hnot⟩
    · right
      refine ⟨x :: pre, seg, by simp [hxs], hseg, ?_⟩
      simp [lastIndexOf, hidx]

/-- The name `Get` looks for is the final segment of the path. -/
theorem splitPath_snd (path : String) : (splitPath path).2 = finalSegment path := by
  unfold splitPath finalSegment LastIndex
  rcases lastIndexOf_spec '/' path.data with ⟨hnone, hnot⟩ | ⟨pre, seg, hxs, hseg, hidx⟩
  · rw [hnone]
    have hall : ∀ c ∈ path.data.reverse, (fun c => decide (c ≠ '/')) c = true := by
      intro c hc
      have hc2 : c ∈ path.data := List.mem_reverse.mp hc
      simp only [decide_eq_true_eq]
      intro h
      exact hnot (h ▸ hc2)
    rw [List.takeWhile_eq_self_iff.mpr hall]
    simp
  · rw [hidx, hxs]
    have htake : (seg.reverse ++ '/' :: pre.reverse).takeWhile (fun c => decide (c ≠ '/'))
        = seg.reverse := by
      rw [List.takeWhile_append_of_pos]
      · simp [List.takeWhile_cons]
      · intro c hc
        have hc2 : c ∈ seg := List.mem_reverse.mp hc
        simp only [decide_eq_true_eq]
        intro h
        exact hseg (h ▸ hc2)
    have hrev : (pre ++ '/' :: seg).reverse = seg.reverse ++ '/' :: pre.reverse := by simp
    rw [hrev, htake, List.reverse_reverse]
    simp

/-- For a path directly under the root, `"/" ++ name`, the parent path `Get`
computes is the empty string and the name is `name`. -/
theorem splitPath_under_root (name : String) (hname : '/' ∉ name.data) :
    splitPath ("/" ++ name) = ("", name) := by
  have hdata : ("/" ++ name).data = '/' :: name.data := by simp
  have hnone : lastIndexOf '/' name.data = none := by
    rcases lastIndexOf_spec '/' name.data with ⟨h, _⟩ | ⟨pre, seg, hxs, _, _⟩
    · exact h
    · exact absurd (by rw [hxs]; simp) hname
  simp [splitPath, LastIndex, hdata, lastIndexOf, hnone]

/-- The last occurrence of `c` in `pre ++ c :: seg` is at `pre.length` when `c`
does not occur in `seg`. -/
theorem lastIndexOf_append (c : Char) (pre seg : List Char) (hseg : c ∉ seg) :
    lastIndexOf c (pre ++ c :: seg) = some pre.length := by
  have hnone : lastIndexOf c seg = none := by
    rcases lastIndexOf_spec c seg with ⟨h, _⟩ | ⟨p, q, hpq, _, _⟩
    · exact h
    · exact absurd (by rw [hpq]; simp) hseg
  induction pre with
  | nil => simp [lastIndexOf, hnone]
  | cons x xs ih => simp [lastIndexOf, ih]

/-- For a path `parent ++ "/" ++ name` with no separator in `name`, the pair
`Get` computes is `(parent, name)`. -/
theorem splitPath_append (parent name : String) (hname : '/' ∉ name.data) :
    splitPath (parent ++ "/" ++ name) = (parent, name) := by
  have hdata : (parent ++ "/" ++ name).data = parent.data ++ '/' :: name.data := by simp
  have hidx := lastIndexOf_append '/' parent.data name.data hname
  have hdrop : List.drop (parent.data.length + 1) (parent.data ++ '/' :: name.data)
      = name.data := by
    rw [List.drop_append]
    rfl
  have htake : List.take parent.data.length (parent.data ++ '/' :: name.data) = parent.data := by
    simp
  simp only [splitPath, LastIndex, hdata, hidx, hdrop, htake]

/-! ## `List` -/

/-- The loop of `List` on a folder that is present. -/
theorem listLoop_some (env : Env) (o : Object) (files : Files) (objs : Objs) :
    listLoop env (some o) files objs = Result.ok (objs ++ files.map (toObject env o.Path)) := by
  induction files generalizing objs with
  | nil => simp [listLoop]
  | cons file rest ih => simp [listLoop, ih]

/-- `List` issues exactly one request, the listing of `folderID`, however it ends. -/
theorem List_log (d : Szczk) (env : Env) (w : World) (dir : Option Object) :
    (d.List env w dir).2 = { w with log := w.log ++ [listRequest d (folderID d dir)] } := by
  unfold Szczk.List send
  cases env.respond w.log (listRequest d (folderID d dir)) with
  | failure cause => rfl
  | response status body =>
    by_cases hs : IsError status = true
    · simp [hs]
    · cases hdec : env.decodeList body <;> simp [hs, hdec]

/-- `List` on a present folder whose call succeeds with a decodable body. -/
theorem List_success (d : Szczk) (env : Env) (w : World) (o : Object) (status : Nat)
    (body : String) (entries : Files)
    (hreply : env.respond w.log (listRequest d o.ID) = Reply.response status body)
    (hstatus : IsError status = false)
    (hdecode : env.decodeList body = some entries) :
    d.List env w (some o) =
      (Result.ok (entries.map (toObject env o.Path)),
       { w with log := w.log ++ [listRequest d o.ID] }) := by
  simp [Szczk.List, send, folderID, hreply, hstatus, hdecode, listLoop_some]

/-! ## `Get` -/

/-- The name match of `Get`: when the listing that `Get` requests (under the
identifier `parentFolderID`) comes back decodable, `Get` returns a child of
that listing whose name equals,
character for character, the final segment of `path` whenever the listing has
such a child, and it returns `ObjectNotFound` if and only if no child of the
listing has exactly that name. -/
theorem Get_exact_name_match (env : Env) (d : Szczk) (w : World) (path : String) (status : Nat)
    (body : String) (entries : Files)
    (hreply : env.respond w.log (listRequest d (parentFolderID d path)) = Reply.response status body)
    (hstatus : IsError status = false)
    (hdecode : env.decodeList body = some entries) :
    ((∃ e ∈ entries, e.Name = finalSegment path) →
      ∃ obj, (d.Get env w path).1 = Result.ok obj ∧ obj.Name = finalSegment path ∧
        obj ∈ entries.map (toObject env (splitPath path).1)) ∧
    ((d.Get env w path).1 = Result.err Err.ObjectNotFound ↔
      ∀ e ∈ entries, e.Name ≠ finalSegment path) := by
  have hlist := List_success d env w (parentObj d path) status body entries hreply hstatus hdecode
  have hseg := splitPath_snd path
  unfold Szczk.Get
  rw [hlist]
  simp only [parentObj]
  cases hfind : (entries.map (toObject env (splitPath path).1)).find?
      (fun file => decide (file.Name = (splitPath path).2)) with
  | none =>
    have hall := List.find?_eq_none.mp hfind
    have hno : ∀ e ∈ entries, e.Name ≠ finalSegment path := by
      intro e he hname
      have := hall (toObject env (splitPath path).1 e) (List.mem_map_of_mem _ he)
      simp [toObject, hseg, hname] at this
    refine ⟨?_, ?_⟩
    · rintro ⟨e, he, hname⟩
      exact absurd hname (hno e he)
    · simp only [true_iff]
      exact hno
  | some obj =>
    have hmem := List.mem_of_find?_eq_some hfind
    have hname : obj.Name = finalSegment path := by
      have := List.find?_some hfind
      simpa [hseg] using this
    refine ⟨fun _ => ⟨obj, rfl, hname, hmem⟩, ?_⟩
    constructor
    · intro h
      simp at h
    · intro hno
      obtain ⟨e, he, hobj⟩ := List.mem_map.mp hmem
      exact absurd (by rw [← hobj] at hname; simpa [toObject] using hname) (hno e he)

/-- The name match on a remote side that answers every listing request,
whatever its `folder_id`, with `a.txt` and `b.txt`: `Get "/parent/a.txt"`
returns the child named `a.txt`, and `Get "/parent/c.txt"` returns
`ObjectNotFound`. -/
theorem Get_exact_name_match_witness :
    (∃ obj, (d0.Get envAB w0 "/parent/a.txt").1 = Result.ok obj ∧
      obj.Name = finalSegment "/parent/a.txt" ∧
      obj ∈ [{ ID := "7", Name := "a.txt", Size := 1, IsFolder := false, ModifiedAt := "yesterday" },
             { ID := "8", Name := "b.txt", Size := 2, IsFolder := false, ModifiedAt := "" }].map
              (toObject envAB (splitPath "/parent/a.txt").1)) ∧
    finalSegment "/parent/a.txt" = "a.txt" ∧
    (d0.Get envAB w0 "/parent/c.txt").1 = Result.err Err.ObjectNotFound :=
  ⟨(Get_exact_name_match envAB d0 w0 "/parent/a.txt" 200 "ab" _ (by decide) (by decide)
      (by decide)).1
      ⟨{ ID := "7", Name := "a.txt", Size := 1, IsFolder := false, ModifiedAt := "yesterday" },
       by decide, by decide⟩,
   by decide,
   by decide⟩

/-- For a path without any separator the parent path keeps its default `"/"`
and the one `/list_files` call of `Get` asks for the configured root folder. -/
theorem Get_no_separator_lists_root (env : Env) (d : Szczk) (w : World) (path : String)
    (hpath : '/' ∉ path.data) :
    splitPath path = ("/", path) ∧
    (d.Get env w path).2 = { w with log := w.log ++ [listRequest d d.RootFolderID] } := by
  have hnone : lastIndexOf '/' path.data = none := by
    rcases lastIndexOf_spec '/' path.data with ⟨h, _⟩ | ⟨p, q, hpq, _, _⟩
    · exact h
    · exact absurd (by rw [hpq]; simp) hpath
  have hsplit : splitPath path = ("/", path) := by
    simp [splitPath, LastIndex, hnone]
  have hfolder : folderID d (some (parentObj d path)) = d.RootFolderID := by
    simp [folderID, parentObj, parentFolderID, hsplit]
  refine ⟨hsplit, ?_⟩
  have hlog := List_log d env w (some (parentObj d path))
  rw [hfolder] at hlog
  unfold Szczk.Get
  generalize d.List env w (some (parentObj d path)) = r at hlog
  obtain ⟨res, w1⟩ := r
  simp only at hlog
  subst hlog
  cases res with
  | ok files =>
    simp only
    cases files.find? (fun file => decide (file.Name = (splitPath path).2)) <;> rfl
  | err e => rfl
  | panic msg => rfl

/-- C4 (the code does not do this): for a path `parent ++ "/" ++ name` whose
parent is not `"/"`, the one `/list_files` call of `Get` does not ask for the
parent folder: it carries `folder_id` equal to the whole path, so it differs
from the request for any other folder identifier, the parent's among them.
Whatever the parent folder contains, when the remote side answers that
request with an error status, `Get` returns that error wrapped: neither a
child nor `ObjectNotFound`. -/
theorem Get_lists_path_not_parent (env : Env) (d : Szczk) (w : World) (parent name : String)
    (hname : '/' ∉ name.data) (hparent : parent ≠ "/") :
    (d.Get env w (parent ++ "/" ++ name)).2
      = { w with log := w.log ++ [listRequest d (parent ++ "/" ++ name)] } ∧
    (∀ parentID, parentID ≠ parent ++ "/" ++ name →
      listRequest d (parent ++ "/" ++ name) ≠ listRequest d parentID) ∧
    (∀ status body,
      env.respond w.log (listRequest d (parent ++ "/" ++ name)) = Reply.response status body →
      IsError status = true →
      (d.Get env w (parent ++ "/" ++ name)).1 =
        Result.err (Err.wrap "failed to list parent directory for Get operation"
          (Err.status "failed to list files" status (respString body)))) := by
  have hsplit := splitPath_append parent name hname
  have hid : parentFolderID d (parent ++ "/" ++ name) = parent ++ "/" ++ name := by
    simp [parentFolderID, hsplit, hparent]
  have hfolder : folderID d (some (parentObj d (parent ++ "/" ++ name))) = parent ++ "/" ++ name := by
    simp [folderID, parentObj, hid]
  refine ⟨?_, ?_, ?_⟩
  · have hlog := List_log d env w (some (parentObj d (parent ++ "/" ++ name)))
    rw [hfolder] at hlog
    unfold Szczk.Get
    generalize d.List env w (some (parentObj d (parent ++ "/" ++ name))) = r at hlog
    obtain ⟨res, w1⟩ := r
    simp only at hlog
    subst hlog
    cases res with
    | ok files =>
      simp only
      cases files.find? (fun file => decide (file.Name = (splitPath (parent ++ "/" ++ name)).2)) <;> rfl
    | err e => rfl
    | panic msg => rfl
  · intro parentID hne h
    apply hne
    simp [listRequest] at h
    exact h.symm
  · intro status body hreply hstatus
    simp [Szczk.Get, Szczk.List, send, hfolder, hreply, hstatus]

/-- C4, on a remote side that lists `a.txt` and `b.txt` under the identifier
`p1` of `/parent` and knows no other folder: `List` on that folder returns the
two children, while `Get "/parent/a.txt"` asks for `folder_id=/parent/a.txt`
and returns the 404 wrapped, and so does `Get "/parent/c.txt"`, where the
claim expects `ObjectNotFound`. -/
theorem Get_lists_path_not_parent_witness :
    (d0.List envParent w0 (some parentDir)).1 =
      Result.ok [{ ID := "7", Path := "/parent/a.txt", Name := "a.txt", Size := 1, Modified := 0,
                   IsFolder := false },
                 { ID := "8", Path := "/parent/b.txt", Name := "b.txt", Size := 2, Modified := 0,
                   IsFolder := false }] ∧
    "/parent" ++ "/" ++ "a.txt" = "/parent/a.txt" ∧
    (d0.Get envParent w0 ("/parent" ++ "/" ++ "a.txt")).2
      = { w0 with log := w0.log ++ [listRequest d0 ("/parent" ++ "/" ++ "a.txt")] } ∧
    listRequest d0 ("/parent" ++ "/" ++ "a.txt") ≠ listRequest d0 parentDir.ID ∧
    (d0.Get envParent w0 ("/parent" ++ "/" ++ "a.txt")).1 =
      Result.err (Err.wrap "failed to list parent directory for Get operation"
        (Err.status "failed to list files" 404 (respString " unknown folder \n"))) ∧
    respString " unknown folder \n" = "unknown folder" ∧
    (d0.Get envParent w0 "/parent/c.txt").1 =
      Result.err (Err.wrap "failed to list parent directory for Get operation"
        (Err.status "failed to list files" 404 "unknown folder")) :=
  ⟨by decide,
   by decide,
   (Get_lists_path_not_parent envParent d0 w0 "/parent" "a.txt" (by decide) (by decide)).1,
   (Get_lists_path_not_parent envParent d0 w0 "/parent" "a.txt" (by decide) (by decide)).2.1
     parentDir.ID (by decide),
   (Get_lists_path_not_parent envParent d0 w0 "/parent" "a.txt" (by decide) (by decide)).2.2
     404 " unknown folder \n" (by decide) (by decide),
   by decide,
   by decide⟩

/-- C5 (the code does not do this): for a path directly under the root,
`"/" ++ name` with no separator in `name`, the single `/list_files` call of
`Get` carries `folder_id = "/" ++ name`, the path itself, and that is not the
request for the configured root folder unless the root folder identifier
happens to be that very string. -/
theorem Get_under_root_lists_path (env : Env) (d : Szczk) (w : World) (name : String)
    (hname : '/' ∉ name.data) :
    (d.Get env w ("/" ++ name)).2 = { w with log := w.log ++ [listRequest d ("/" ++ name)] } ∧
    (d.RootFolderID ≠ "/" ++ name →
      listRequest d ("/" ++ name) ≠ listRequest d d.RootFolderID) := by
  have hsplit := splitPath_under_root name hname
  have hid : parentFolderID d ("/" ++ name) = "/" ++ name := by
    simp [parentFolderID, hsplit]
  have hlog := List_log d env w (some (parentObj d ("/" ++ name)))
  have hfolder : folderID d (some (parentObj d ("/" ++ name))) = "/" ++ name := by
    simp [folderID, parentObj, hid]
  rw [hfolder] at hlog
  refine ⟨?_, ?_⟩
  · unfold Szczk.Get
    generalize d.List env w (some (parentObj d ("/" ++ name))) = r at hlog
    obtain ⟨res, w1⟩ := r
    simp only at hlog
    subst hlog
    cases res with
    | ok files =>
      simp only
      cases files.find? (fun file => decide (file.Name = (splitPath ("/" ++ name)).2)) <;> rfl
    | err e => rfl
    | panic msg => rfl
  · intro hne h
    apply hne
    simp [listRequest] at h
    exact h.symm

/-- C5, at `Get "/a.txt"` with root folder `"root"`: the one request issued
asks for `folder_id = "/a.txt"`. -/
theorem Get_under_root_lists_path_witness :
    ('/' ∉ "a.txt".data) ∧
    (d0.Get envAB w0 ("/" ++ "a.txt")).2
      = { w0 with log := w0.log ++ [listRequest d0 ("/" ++ "a.txt")] } ∧
    listRequest d0 ("/" ++ "a.txt") ≠ listRequest d0 d0.RootFolderID :=
  ⟨by decide,
   (Get_under_root_lists_path envAB d0 w0 "a.txt" (by decide)).1,
   (Get_under_root_lists_path envAB d0 w0 "a.txt" (by decide)).2 (by decide)⟩

/-! ## What `List` returns -/

theorem carries_toObject (env : Env) (dirPath : String) (e : FileEntry) :
    carries env e (toObject env dirPath e) := by
  refine ⟨rfl, rfl, rfl, rfl, ?_, ?_⟩
  · intro h; simp [toObject, h]
  · intro t h; simp [toObject, h]

/-- C6 (the code does not do this): for a folder whose path is `"/"`, every
object `List` returns has the path `"//"` followed by its name, two
separators, which is never `"/"` followed by its name. -/
theorem List_root_paths (env : Env) (d : Szczk) (w : World) (dir : Object) (status : Nat)
    (body : String) (entries : Files)
    (hpath : dir.Path = "/")
    (hreply : env.respond w.log (listRequest d dir.ID) = Reply.response status body)
    (hstatus : IsError status = false)
    (hdecode : env.decodeList body = some entries) :
    ∃ objs, (d.List env w (some dir)).1 = Result.ok objs ∧
      objs.length = entries.length ∧
      ∀ obj ∈ objs, obj.Path = "//" ++ obj.Name ∧ obj.Path ≠ "/" ++ obj.Name := by
  refine ⟨_, by rw [List_success d env w dir status body entries hreply hstatus hdecode], by simp, ?_⟩
  intro obj hobj
  obtain ⟨e, _, rfl⟩ := List.mem_map.mp hobj
  have h1 : (toObject env dir.Path e).Path = "//" ++ e.Name := by
    simp only [toObject, hpath]
    rfl
  refine ⟨h1, ?_⟩
  rw [h1]
  intro h
  have hn : (toObject env dir.Path e).Name = e.Name := rfl
  rw [hn] at h
  have hlen := congrArg String.length h
  rw [String.length_append, String.length_append] at hlen
  have h2 : "//".length = 2 := by decide
  have h3 : "/".length = 1 := by decide
  omega

/-- C6, on the listing scenario: the folder `root` with path `"/"` and the
response holding `doc.txt` give one object, whose path is `"//doc.txt"`. -/
theorem List_root_paths_witness :
    (∃ objs, (d0.List envListing w0 (some rootDir)).1 = Result.ok objs ∧
      objs.length = [docEntry].length ∧
      ∀ obj ∈ objs, obj.Path = "//" ++ obj.Name ∧ obj.Path ≠ "/" ++ obj.Name) ∧
    (d0.List envListing w0 (some rootDir)).1 =
      Result.ok [{ ID := "1", Path := "//doc.txt", Name := "doc.txt", Size := 10,
                   Modified := 63839664000000000000, IsFolder := false }] :=
  ⟨List_root_paths envListing d0 w0 rootDir 200 "listing" [docEntry] (by decide) (by decide)
     (by decide) (by decide),
   by decide⟩

/-- C10 (holds when a folder is given; the code fails it for a nil folder):
for a successfully decoded listing response, `List` on a folder that is present
returns one object per entry of `files`, in the order of the response, each
carrying the entry's id, name, size and folder flag, with the parsed
modification time or the zero time when `modified_at` does not parse, so an
unparseable timestamp never makes `List` fail. On a nil folder, for which the
code requests the root listing, a response with at least one entry makes `List`
panic on `dir.GetPath()` instead of returning. -/
theorem List_decoded_listing (env : Env) (d : Szczk) (w : World) (dir : Option Object)
    (status : Nat) (body : String) (entries : Files)
    (hreply : env.respond w.log (listRequest d (folderID d dir)) = Reply.response status body)
    (hstatus : IsError status = false)
    (hdecode : env.decodeList body = some entries) :
    (∀ o, dir = some o →
      ∃ objs, (d.List env w dir).1 = Result.ok objs ∧ List.Forall₂ (carries env) entries objs) ∧
    (dir = none → entries ≠ [] →
      (d.List env w dir).1 = Result.panic "invalid memory address or nil pointer dereference") := by
  refine ⟨?_, ?_⟩
  · rintro o rfl
    refine ⟨entries.map (toObject env o.Path), ?_, ?_⟩
    · rw [List_success d env w o status body entries hreply hstatus hdecode]
    · rw [List.forall₂_map_right_iff, List.forall₂_same]
      intro e _
      exact carries_toObject env o.Path e
  · rintro rfl hne
    cases entries with
    | nil => exact absurd rfl hne
    | cons e rest => simp [Szczk.List, send, hreply, hstatus, hdecode, listLoop]

/-- C10, on the listing of `a.txt` (timestamp `"yesterday"`) and `b.txt` (no
timestamp): on the root folder both are returned, with the zero time; on a nil
folder the same response makes `List` panic. -/
theorem List_decoded_listing_witness :
    (∃ objs, (d0.List envAB w0 (some rootDir)).1 = Result.ok objs ∧
      List.Forall₂ (carries envAB)
        [{ ID := "7", Name := "a.txt", Size := 1, IsFolder := false, ModifiedAt := "yesterday" },
         { ID := "8", Name := "b.txt", Size := 2, IsFolder := false, ModifiedAt := "" }] objs) ∧
    (d0.List envAB w0 (some rootDir)).1 =
      Result.ok [{ ID := "7", Path := "//a.txt", Name := "a.txt", Size := 1, Modified := 0,
                   IsFolder := false },
                 { ID := "8", Path := "//b.txt", Name := "b.txt", Size := 2, Modified := 0,
                   IsFolder := false }] ∧
    (d0.List envAB w0 none).1 = Result.panic "invalid memory address or nil pointer dereference" :=
  ⟨(List_decoded_listing envAB d0 w0 (some rootDir) 200 "ab" _ (by decide) (by decide)
      (by decide)).1 rootDir rfl,
   by decide,
   (List_decoded_listing envAB d0 w0 none 200 "ab"
      [{ ID := "7", Name := "a.txt", Size := 1, IsFolder := false, ModifiedAt := "yesterday" },
       { ID := "8", Name := "b.txt", Size := 2, IsFolder := false, ModifiedAt := "" }]
      (by decide) (by decide) (by decide)).2 rfl (by decide)⟩

/-! ## `Link` -/

/-- C8: for every object with `isFolder = true`, whatever the driver state and
the remote side, `Link` returns `NotFile` and leaves the world as it was: no
request is issued. -/
theorem Link_folder_NotFile (d : Szczk) (env : Env) (w : World) (file : Object)
    (hfolder : file.IsFolder = true) :
    d.Link env w file = (Result.err Err.NotFile, w) := by
  simp [Szczk.Link, hfolder]

/-- C8, on the root folder. -/
theorem Link_folder_NotFile_witness :
    rootDir.IsFolder = true ∧ d0.Link envListing w0 rootDir = (Result.err Err.NotFile, w0) :=
  ⟨rfl, Link_folder_NotFile d0 envListing w0 rootDir rfl⟩

/-! ## Durations -/

theorem wrap64_of_range (x : Int) (hlo : minDuration ≤ x) (hhi : x ≤ maxDuration) :
    wrap64 x = x := by
  unfold minDuration at hlo
  unfold maxDuration at hhi
  unfold wrap64
  omega

theorem secondsToDuration_of_range (n : Int) (hlo : -9223372036 ≤ n) (hhi : n ≤ 9223372036) :
    secondsToDuration n = n * Second := by
  unfold secondsToDuration
  have h1 : wrap64 n = n := wrap64_of_range n (by unfold minDuration; omega) (by unfold maxDuration; omega)
  rw [h1]
  apply wrap64_of_range <;> (simp only [minDuration, maxDuration, Second]; omega)

/-- An authentication that is answered with a success status and a decodable body. -/
theorem authenticate_success (env : Env) (d : Szczk) (w : World) (status : Nat)
    (body : String) (r : AuthResponse)
    (hreply : env.respond w.log (authRequest d) = Reply.response status body)
    (hstatus : IsError status = false)
    (hdecode : env.decodeAuth body = some r) :
    authenticate env d w =
      (none,
       { d with accessToken := r.AccessToken,
                refreshToken := r.RefreshToken,
                tokenExpiresAt :=
                  Time.Add (env.clock (w.log ++ [authRequest d])) (secondsToDuration r.ExpiresIn) },
       { w with log := w.log ++ [authRequest d] }) := by
  simp [authenticate, send, hreply, hstatus, hdecode]

/-! ## The scheduler's interval -/

/-- C7 (fails as stated): an authentication answered with
`expires_in = -9223372036` yields a token that expired some 292 years before
the instant of authentication, so `expiresAt - now - 5 minutes` is negative,
and the interval computed at that instant is not one minute: the subtraction
of the five minutes wraps around to about 292 years. -/
theorem refreshInterval_wraps_counterexample :
    (authenticate (envAnswering "stale") d0 w0).1 = none ∧
    (authenticate (envAnswering "stale") d0 w0).2.1.tokenExpiresAt
      - (envAnswering "stale").clock (authenticate (envAnswering "stale") d0 w0).2.2.log
      - 5 * Minute < 0 ∧
    refreshInterval (authenticate (envAnswering "stale") d0 w0).2.1.tokenExpiresAt
        ((envAnswering "stale").clock (authenticate (envAnswering "stale") d0 w0).2.2.log)
      = 9223371737709551616 ∧
    refreshInterval (authenticate (envAnswering "stale") d0 w0).2.1.tokenExpiresAt
        ((envAnswering "stale").clock (authenticate (envAnswering "stale") d0 w0).2.2.log)
      ≠ 1 * Minute := by
  refine ⟨by decide, by decide, by decide, by decide⟩

/-- C7 (amended): whenever `expiresAt - now - 5 minutes` is not below the
smallest duration and `expiresAt - now` is not above the largest one, the
interval is `expiresAt - now - 5 minutes` when that value is not negative and
one minute when it is negative. In particular, after an authentication that
returns `expires_in = 3600`, the interval computed at the instant of
authentication is 3300 seconds. -/
theorem refreshInterval_spec (expiresAt now : Int)
    (hlo : minDuration ≤ expiresAt - now - 5 * Minute)
    (hhi : expiresAt - now ≤ maxDuration) :
    (0 ≤ expiresAt - now - 5 * Minute →
      refreshInterval expiresAt now = expiresAt - now - 5 * Minute) ∧
    (expiresAt - now - 5 * Minute < 0 → refreshInterval expiresAt now = 1 * Minute) ∧
    (∀ (env : Env) (d : Szczk) (w : World) (status : Nat) (body : String) (r : AuthResponse),
      env.respond w.log (authRequest d) = Reply.response status body →
      IsError status = false →
      env.decodeAuth body = some r →
      r.ExpiresIn = 3600 →
      (authenticate env d w).1 = none ∧
      refreshInterval (authenticate env d w).2.1.tokenExpiresAt
        (env.clock (authenticate env d w).2.2.log) = 3300 * Second) := by
  have hsub : Time.Sub expiresAt now = expiresAt - now := by
    unfold Time.Sub
    simp only [minDuration, maxDuration, Minute, Second] at hlo hhi ⊢
    split_ifs <;> omega
  have hwrap : wrap64 (Time.Sub expiresAt now - 5 * Minute) = expiresAt - now - 5 * Minute := by
    rw [hsub]
    apply wrap64_of_range _ hlo
    simp only [minDuration, maxDuration, Minute, Second] at hlo hhi ⊢
    omega
  refine ⟨?_, ?_, ?_⟩
  · intro h
    simp only [refreshInterval, hwrap]
    rw [if_neg (by omega)]
  · intro h
    simp only [refreshInterval, hwrap]
    rw [if_pos h]
  · intro env d w status body r hreply hstatus hdecode h3600
    rw [authenticate_success env d w status body r hreply hstatus hdecode]
    refine ⟨rfl, ?_⟩
    simp only [h3600]
    have hd : secondsToDuration 3600 = 3600 * Second :=
      secondsToDuration_of_range 3600 (by omega) (by omega)
    have hs : Time.Sub (Time.Add (env.clock (w.log ++ [authRequest d])) (secondsToDuration 3600))
        (env.clock (w.log ++ [authRequest d])) = 3600 * Second := by
      rw [hd]
      unfold Time.Sub Time.Add
      simp only [minDuration, maxDuration, Second]
      split_ifs <;> omega
    simp only [refreshInterval, hs]
    decide

/-- C7 (amended), one hour before expiry, one minute after it, and right after
an authentication answered with a token valid for 3600 seconds. -/
theorem refreshInterval_spec_witness :
    refreshInterval (1000 * Second + 3600 * Second) (1000 * Second)
      = 1000 * Second + 3600 * Second - 1000 * Second - 5 * Minute ∧
    refreshInterval (1000 * Second) (1000 * Second + 60 * Second) = 1 * Minute ∧
    ((authenticate (envAnswering "tokens") d0 w0).1 = none ∧
      refreshInterval (authenticate (envAnswering "tokens") d0 w0).2.1.tokenExpiresAt
        ((envAnswering "tokens").clock (authenticate (envAnswering "tokens") d0 w0).2.2.log)
      = 3300 * Second) :=
  ⟨(refreshInterval_spec (1000 * Second + 3600 * Second) (1000 * Second) (by decide)
      (by decide)).1 (by decide),
   (refreshInterval_spec (1000 * Second) (1000 * Second + 60 * Second) (by decide)
      (by decide)).2.1 (by decide),
   (refreshInterval_spec (1000 * Second + 3600 * Second) (1000 * Second) (by decide)
      (by decide)).2.2 (envAnswering "tokens") d0 w0 200 "tokens"
      { AccessToken := "t1", RefreshToken := "r1", ExpiresIn := 3600 }
      (by decide) (by decide) (by decide) rfl⟩

/-! ## What a refresh changes -/

/-- C9 (fails as stated): a successful refresh response with
`expires_in = 9223372037` sets the expiry to an instant in the past, because
the conversion of that many seconds to nanoseconds wraps around: the expiry is
not `now + expires_in` seconds. -/
theorem refreshAccessToken_wraps_counterexample :
    (refreshAccessToken (envAnswering "forever") d0 w0).1 = none ∧
    (refreshAccessToken (envAnswering "forever") d0 w0).2.1.tokenExpiresAt
      = (envAnswering "forever").clock (refreshAccessToken (envAnswering "forever") d0 w0).2.2.log
        - 9223372036709551616 ∧
    (refreshAccessToken (envAnswering "forever") d0 w0).2.1.tokenExpiresAt
      ≠ (envAnswering "forever").clock (refreshAccessToken (envAnswering "forever") d0 w0).2.2.log
        + 9223372037 * Second := by
  refine ⟨by decide, by decide, by decide⟩

/-- C9 (amended): for every token state and every successful refresh response
whose `expires_in` fits a duration (between -9223372036 and 9223372036
seconds), after `refreshAccessToken` the access token is the one of the
response, the expiry is `now + expires_in` seconds, where `now` is the clock
after the call, and the refresh token and the configuration are the ones held
before the call. -/
theorem refreshAccessToken_frame (env : Env) (d : Szczk) (w : World) (status : Nat)
    (body : String) (r : RefreshTokenResponse)
    (hreply : env.respond w.log (refreshRequest d) = Reply.response status body)
    (hstatus : IsError status = false)
    (hdecode : env.decodeRefresh body = some r)
    (hlo : -9223372036 ≤ r.ExpiresIn) (hhi : r.ExpiresIn ≤ 9223372036) :
    (refreshAccessToken env d w).1 = none ∧
    (refreshAccessToken env d w).2.1.accessToken = r.AccessToken ∧
    (refreshAccessToken env d w).2.1.tokenExpiresAt
      = env.clock (refreshAccessToken env d w).2.2.log + r.ExpiresIn * Second ∧
    (refreshAccessToken env d w).2.1.refreshToken = d.refreshToken ∧
    (refreshAccessToken env d w).2.1.APIKey = d.APIKey ∧
    (refreshAccessToken env d w).2.1.APISecret = d.APISecret ∧
    (refreshAccessToken env d w).2.1.RootFolderID = d.RootFolderID ∧
    (refreshAccessToken env d w).2.1.AuthURL = d.AuthURL ∧
    (refreshAccessToken env d w).2.1.BaseURL = d.BaseURL := by
  rw [refreshAccessToken_success env d w status body r hreply hstatus hdecode]
  refine ⟨rfl, rfl, ?_, rfl, rfl, rfl, rfl, rfl, rfl⟩
  simp only [Time.Add, secondsToDuration_of_range r.ExpiresIn hlo hhi]

/-- C9 (amended), on a refresh answered with a token valid for an hour. -/
theorem refreshAccessToken_frame_witness :
    (refreshAccessToken (envAnswering "tokens") d0 w0).1 = none ∧
    (refreshAccessToken (envAnswering "tokens") d0 w0).2.1.accessToken = "t1" ∧
    (refreshAccessToken (envAnswering "tokens") d0 w0).2.1.tokenExpiresAt
      = (envAnswering "tokens").clock (refreshAccessToken (envAnswering "tokens") d0 w0).2.2.log
        + 3600 * Second ∧
    (refreshAccessToken (envAnswering "tokens") d0 w0).2.1.refreshToken = "r0" := by
  have h := refreshAccessToken_frame (envAnswering "tokens") d0 w0 200 "tokens"
    { AccessToken := "t1", ExpiresIn := 3600 } (by decide) (by decide) (by decide)
    (by decide) (by decide)
  exact ⟨h.1, h.2.1, h.2.2.1, h.2.2.2.1⟩

/-! ## The interval handed to the ticker -/

/-- The computed interval is zero exactly when the expiry lies five minutes
after the current instant. -/
theorem refreshInterval_eq_zero (expiresAt now : Int) :
    refreshInterval expiresAt now = 0 ↔ expiresAt - now = 5 * Minute := by
  simp only [refreshInterval, Time.Sub, wrap64, minDuration, maxDuration, Minute, Second]
  split_ifs <;> omega

/-- With the expiry exactly five minutes after the clock reading,
`startTokenRefresh` panics when it creates its ticker, whatever follows. -/
theorem startTokenRefresh_creation_panics (env : Env) (d : Szczk) (w : World) (now : Int)
    (events : List Event) (h : d.tokenExpiresAt - now = 5 * Minute) :
    startTokenRefresh env d w now events
      = (some (Result.panic "non-positive interval for NewTicker"), d, w) := by
  simp [startTokenRefresh, NewTicker, (refreshInterval_eq_zero _ _).mpr h]

/-- C11 (the code does not do this): the interval that `startTokenRefresh`
hands to `NewTicker` and to `Ticker.Reset` is never negative, but it is zero
exactly when the expiry lies five minutes after the current instant, because
the guard replaces only negative values. At those instants `NewTicker` and
`Ticker.Reset` panic; at all others the interval is strictly positive and both
accept it. -/
theorem refreshInterval_zero_iff (expiresAt now : Int) :
    0 ≤ refreshInterval expiresAt now ∧
    (refreshInterval expiresAt now = 0 ↔ expiresAt - now = 5 * Minute) ∧
    (expiresAt - now = 5 * Minute →
      NewTicker (refreshInterval expiresAt now)
        = Result.panic "non-positive interval for NewTicker" ∧
      Ticker.Reset (refreshInterval expiresAt now)
        = Result.panic "non-positive interval for Ticker.Reset") ∧
    (expiresAt - now ≠ 5 * Minute →
      0 < refreshInterval expiresAt now ∧
      NewTicker (refreshInterval expiresAt now) = Result.ok (refreshInterval expiresAt now) ∧
      Ticker.Reset (refreshInterval expiresAt now) = Result.ok (refreshInterval expiresAt now)) := by
  have hnonneg : 0 ≤ refreshInterval expiresAt now := by
    simp only [refreshInterval, Minute, Second]
    split_ifs <;> omega
  have hzero := refreshInterval_eq_zero expiresAt now
  refine ⟨hnonneg, hzero, ?_, ?_⟩
  · intro h
    have h0 := hzero.mpr h
    simp [NewTicker, Ticker.Reset, h0]
  · intro h
    have hne : refreshInterval expiresAt now ≠ 0 := fun h0 => h (hzero.mp h0)
    have hpos : 0 < refreshInterval expiresAt now := by omega
    refine ⟨hpos, ?_, ?_⟩
    · simp only [NewTicker]
      rw [if_neg (by omega)]
    · simp only [Ticker.Reset]
      rw [if_neg (by omega)]

/-- C11, at concrete instants: with the expiry five minutes ahead the interval
is zero and creating the ticker panics. With the expiry an hour ahead the
ticker is created; a tick whose refresh returns `expires_in = 300`, stamped at
second 63839664001, panics on the reset when the clock still reads that
instant, and is reset to one minute when the clock reads one nanosecond more,
after which the method returns when the context is done. -/
theorem refreshInterval_zero_iff_witness :
    refreshInterval (63839664000 * Second + 5 * Minute) (63839664000 * Second) = 0 ∧
    (NewTicker (refreshInterval (63839664000 * Second + 5 * Minute) (63839664000 * Second))
        = Result.panic "non-positive interval for NewTicker" ∧
      Ticker.Reset (refreshInterval (63839664000 * Second + 5 * Minute) (63839664000 * Second))
        = Result.panic "non-positive interval for Ticker.Reset") ∧
    (startTokenRefresh (envAnswering "tokens") dFiveMinutes w0 (63839664000 * Second)
        [Event.done]).1
      = some (Result.panic "non-positive interval for NewTicker") ∧
    (startTokenRefresh (envAnswering "short") dOneHour w0 (63839664000 * Second)
        [Event.fire (63839664001 * Second), Event.done]).1
      = some (Result.panic "non-positive interval for Ticker.Reset") ∧
    (tick (envAnswering "short") dOneHour w0 (63839664001 * Second + 1)).1 = 1 * Minute ∧
    (startTokenRefresh (envAnswering "short") dOneHour w0 (63839664000 * Second)
        [Event.fire (63839664001 * Second + 1), Event.done]).1
      = some (Result.ok ()) :=
  ⟨(refreshInterval_zero_iff (63839664000 * Second + 5 * Minute) (63839664000 * Second)).2.1.mpr
      (by decide),
   (refreshInterval_zero_iff (63839664000 * Second + 5 * Minute) (63839664000 * Second)).2.2.1
      (by decide),
   by decide, by decide, by decide, by decide⟩

end szczk
